import Mathlib

set_option maxHeartbeats 800000

namespace PhiFlowSpec

/-!
Shallow embedding of `src/phi/physics/flip.py` and
`src/phi/physics/field/mask.py` from the PhiFlow repository.

External collaborators (the `phi.math` / `phi.field` / `phi.geom` layers:
grids, sampling, extrapolation, the linear solver, geometry push operations)
are not part of the sources; per the spec they are consumed through
interfaces.  They are embedded either as abstract operation records that the
theorems quantify over, or as small concrete models whose doc comments say
`Modelled from the spec:`.
-/

/-! ## Particle–grid velocity transfer (`map_velocity_to_particles`, flip.py lines 73-109) -/

/-- Abstract record of the external grid operations that
`map_velocity_to_particles` consumes.  Modelled from the spec:
`extrapolate_valid(field, validity_mask, steps) -> (extrapolated_field,
new_validity_mask)` fills invalid cells from valid neighbours; `sample` is grid
resampling at a point (the `grid @ cloud` operation); `sub` is field
subtraction.  Velocity components are rationals. -/
structure GridOps (G M P : Type) where
  extrapolate_valid : G → M → G × M
  sample : G → P → ℚ
  sub : G → G → G

/-- A `PointCloud` with `n` particles: positions (`elements`) and per-particle
velocity values, as used by the transfer function. -/
structure PointCloudV (n : ℕ) (P : Type) where
  points : Fin n → P
  values : Fin n → ℚ

/-- The clamp on flip.py line 95: `viscosity = min(max(0., viscosity), 1.)`. -/
def clamp01 (v : ℚ) : ℚ := min (max 0 v) 1

/-- Body of `map_velocity_to_particles` after the viscosity preprocessing
(flip.py lines 98-109).  `viscosity` here is the effective value after the
clamp and the `previous_velocity_grid is None` override.  The PIC branch
reassigns `velocity_grid` to its extrapolation, and the FLIP branch uses that
reassigned grid, exactly as in the source.  The `none` arm of the FLIP branch
is unreachable from `map_velocity_to_particles` (the effective viscosity is 1
there); in Python it would raise on `grid - None`. -/
def map_velocity_core {G M P : Type} {n : ℕ} (ops : GridOps G M P)
    (previous_particle_velocity : PointCloudV n P)
    (velocity_grid : G) (occupation_mask : M)
    (previous_velocity_grid : Option G) (viscosity : ℚ) : PointCloudV n P :=
  let velocities0 : Fin n → ℚ := fun _ => 0
  let picStep : G × (Fin n → ℚ) :=
    if 0 < viscosity then
      let vg := (ops.extrapolate_valid velocity_grid occupation_mask).1
      (vg, fun i => velocities0 i +
        viscosity * ops.sample vg (previous_particle_velocity.points i))
    else
      (velocity_grid, velocities0)
  let velocities2 : Fin n → ℚ :=
    if viscosity < 1 then
      match previous_velocity_grid with
      | some pvg =>
        let v_change_field :=
          (ops.extrapolate_valid (ops.sub picStep.1 pvg) occupation_mask).1
        fun i => picStep.2 i + (1 - viscosity) *
          (previous_particle_velocity.values i +
            ops.sample v_change_field (previous_particle_velocity.points i))
      | none => picStep.2
    else picStep.2
  { points := previous_particle_velocity.points, values := velocities2 }

/-- `map_velocity_to_particles` (flip.py lines 73-109): clamp `viscosity` to
`[0, 1]` (line 95), force pure PIC (`viscosity = 1`) when no pre-projection
grid is supplied (lines 96-97), then run the PIC/FLIP blend. -/
def map_velocity_to_particles {G M P : Type} {n : ℕ} (ops : GridOps G M P)
    (previous_particle_velocity : PointCloudV n P)
    (velocity_grid : G) (occupation_mask : M)
    (previous_velocity_grid : Option G) (viscosity : ℚ) : PointCloudV n P :=
  let v1 := clamp01 viscosity
  let v2 := match previous_velocity_grid with
    | none => 1
    | some _ => v1
  map_velocity_core ops previous_particle_velocity velocity_grid occupation_mask
    previous_velocity_grid v2

/-- Concrete grid operations on rationals, used by witnesses. -/
def opsQ : GridOps ℚ ℚ ℚ where
  extrapolate_valid := fun g m => (g + m, m)
  sample := fun g p => g * p + g
  sub := fun a b => a - b

/-- A concrete one-particle cloud, used by witnesses. -/
def cloudQ : PointCloudV 1 ℚ where
  points := fun _ => 2
  values := fun _ => 7

/-- C2: with `viscosity = 1`, or with `previous_velocity_grid = None` (any
viscosity value), the returned particle velocities equal the post-projection
grid velocity, extrapolated via the occupation mask and sampled at each
particle position; positions are preserved, and the result is independent of
the particles' prior velocities. -/
theorem map_velocity_pure_pic {G M P : Type} {n : ℕ} (ops : GridOps G M P)
    (prev : PointCloudV n P) (velocity_grid : G) (occupation_mask : M)
    (previous_velocity_grid : Option G) (viscosity : ℚ)
    (h : viscosity = 1 ∨ previous_velocity_grid = none) :
    (map_velocity_to_particles ops prev velocity_grid occupation_mask
        previous_velocity_grid viscosity).points = prev.points ∧
    (∀ i, (map_velocity_to_particles ops prev velocity_grid occupation_mask
        previous_velocity_grid viscosity).values i =
      ops.sample (ops.extrapolate_valid velocity_grid occupation_mask).1
        (prev.points i)) ∧
    (∀ w : Fin n → ℚ,
      (map_velocity_to_particles ops ⟨prev.points, w⟩ velocity_grid
          occupation_mask previous_velocity_grid viscosity).values =
      (map_velocity_to_particles ops prev velocity_grid occupation_mask
          previous_velocity_grid viscosity).values) := by
  have hv2 : (match previous_velocity_grid with
      | none => (1 : ℚ)
      | some _ => clamp01 viscosity) = 1 := by
    rcases h with h | h
    · cases previous_velocity_grid with
      | none => rfl
      | some g => simp [h, clamp01]
    · simp [h]
  simp only [map_velocity_to_particles]
  rw [hv2]
  simp only [map_velocity_core]
  norm_num

/-- C2 witness: concrete pure-PIC call (no pre-projection grid supplied). -/
theorem map_velocity_pure_pic_witness :
    (map_velocity_to_particles opsQ cloudQ 3 1 none 0).values ⟨0, by norm_num⟩ =
      opsQ.sample (opsQ.extrapolate_valid 3 1).1 (cloudQ.points ⟨0, by norm_num⟩) :=
  (map_velocity_pure_pic opsQ cloudQ 3 1 none 0 (Or.inr rfl)).2.1 ⟨0, by norm_num⟩

/-- C3: with `viscosity = 0` and a pre-projection grid supplied, each returned
particle velocity equals the particle's previous velocity plus the difference
field (post-projection minus pre-projection), extrapolated via the occupation
mask and sampled at the particle's position; positions are preserved. -/
theorem map_velocity_pure_flip {G M P : Type} {n : ℕ} (ops : GridOps G M P)
    (prev : PointCloudV n P) (velocity_grid : G) (occupation_mask : M)
    (pvg : G) :
    (map_velocity_to_particles ops prev velocity_grid occupation_mask
        (some pvg) 0).points = prev.points ∧
    (∀ i, (map_velocity_to_particles ops prev velocity_grid occupation_mask
        (some pvg) 0).values i =
      prev.values i +
        ops.sample
          (ops.extrapolate_valid (ops.sub velocity_grid pvg) occupation_mask).1
          (prev.points i)) := by
  unfold map_velocity_to_particles map_velocity_core
  norm_num [clamp01]

/-- C3 witness: concrete pure-FLIP call. -/
theorem map_velocity_pure_flip_witness :
    (map_velocity_to_particles opsQ cloudQ 3 1 (some 2) 0).values ⟨0, by norm_num⟩ =
      cloudQ.values ⟨0, by norm_num⟩ +
        opsQ.sample (opsQ.extrapolate_valid (opsQ.sub 3 2) 1).1
          (cloudQ.points ⟨0, by norm_num⟩) :=
  (map_velocity_pure_flip opsQ cloudQ 3 1 2).2 ⟨0, by norm_num⟩

/-- C9: a viscosity outside `[0, 1]` is silently clamped to the nearest
endpoint (flip.py line 95): above 1 the call behaves exactly as `viscosity = 1`,
below 0 exactly as `viscosity = 0`; the function is total, so no error is
raised. -/
theorem map_velocity_clamps_viscosity {G M P : Type} {n : ℕ}
    (ops : GridOps G M P) (prev : PointCloudV n P) (velocity_grid : G)
    (occupation_mask : M) (previous_velocity_grid : Option G) (viscosity : ℚ) :
    (1 < viscosity →
      map_velocity_to_particles ops prev velocity_grid occupation_mask
          previous_velocity_grid viscosity =
        map_velocity_to_particles ops prev velocity_grid occupation_mask
          previous_velocity_grid 1) ∧
    (viscosity < 0 →
      map_velocity_to_particles ops prev velocity_grid occupation_mask
          previous_velocity_grid viscosity =
        map_velocity_to_particles ops prev velocity_grid occupation_mask
          previous_velocity_grid 0) := by
  constructor
  · intro hv
    have hc : clamp01 viscosity = clamp01 1 := by
      simp only [clamp01]
      rw [max_eq_right (by linarith), max_eq_right (by norm_num)]
      rw [min_eq_right (by linarith), min_eq_right le_rfl]
    unfold map_velocity_to_particles
    rw [hc]
  · intro hv
    have hc : clamp01 viscosity = clamp01 0 := by
      simp only [clamp01]
      rw [max_eq_left (by linarith), max_eq_left le_rfl]
    unfold map_velocity_to_particles
    rw [hc]

/-- C9 witness: viscosity 2 behaves as 1, viscosity -1 behaves as 0, on a
concrete call. -/
theorem map_velocity_clamps_viscosity_witness :
    map_velocity_to_particles opsQ cloudQ 3 1 (some 2) 2 =
        map_velocity_to_particles opsQ cloudQ 3 1 (some 2) 1 ∧
      map_velocity_to_particles opsQ cloudQ 3 1 (some 2) (-1) =
        map_velocity_to_particles opsQ cloudQ 3 1 (some 2) 0 :=
  ⟨(map_velocity_clamps_viscosity opsQ cloudQ 3 1 (some 2) 2).1 (by norm_num),
   (map_velocity_clamps_viscosity opsQ cloudQ 3 1 (some 2) (-1)).2 (by norm_num)⟩

/-! ## Geometry mask (`GeometryMask`, mask.py lines 6-46) -/

/-- A geometry as consumed by `GeometryMask`: a point-indicator `value_at` and
a spatial `rank`.  Modelled from the spec: geometries support
point-containment evaluation (`value_at`) and carry a rank. -/
structure GeometryS (P : Type) where
  value_at : P → ℚ
  rank : ℕ

/-- `GeometryMask` (mask.py lines 6-15): a tuple of geometries and the
constant `data` value (the converted `value` argument).  The `name`, `flags`
and batch-size metadata of the source class do not affect sampling and are
omitted. -/
structure GeometryMask (P : Type) where
  geometries : List (GeometryS P)
  data : ℚ

/-- `GeometryMask.sample_at` (mask.py lines 17-24): zero geometries give a
zero field; one geometry gives its `value_at` times `data`; several give the
pointwise maximum (`math.max(..., axis=0)`) of the `value_at` values times
`data`. -/
def GeometryMask.sample_at {P : Type} (m : GeometryMask P) (points : P) : ℚ :=
  match m.geometries with
  | [] => 0
  | [g] => g.value_at points * m.data
  | g :: gs =>
    (gs.foldl (fun acc h => max acc (h.value_at points)) (g.value_at points)) *
      m.data

/-- `GeometryMask.rank` (mask.py lines 26-28): reads `self.geometries[0]`;
`none` models the `IndexError` raised on an empty geometry tuple. -/
def GeometryMask.rank {P : Type} (m : GeometryMask P) : Option ℕ :=
  m.geometries.head?.map GeometryS.rank

/-- `GeometryMask.unstack` (mask.py lines 34-36): first reads `self.rank`
(through `propagate_flags_children`), so it fails on an empty geometry tuple;
otherwise it rebuilds one mask per component of `data` (a single component
here, `data` being a scalar constant). -/
def GeometryMask.unstack {P : Type} (m : GeometryMask P) :
    Option (List (GeometryMask P)) :=
  (GeometryMask.rank m).map
    (fun _ => [{ geometries := m.geometries, data := m.data }])

/-- The mask value as the spec describes it: zero with no geometries,
otherwise the pointwise maximum of the geometries' indicator values scaled by
the constant value. -/
def specMaskValue {P : Type} (m : GeometryMask P) (points : P) : ℚ :=
  match m.geometries.map (fun g => g.value_at points) with
  | [] => 0
  | v :: vs => (vs.foldl max v) * m.data

/-- Auxiliary bound: the running maximum over the geometries' indicator
values is at least its start value and at least every contributing value. -/
theorem foldl_max_value_ge {P : Type} (points : P) (v : ℚ)
    (gs : List (GeometryS P)) :
    v ≤ gs.foldl (fun acc h => max acc (h.value_at points)) v ∧
    ∀ g ∈ gs, g.value_at points ≤
      gs.foldl (fun acc h => max acc (h.value_at points)) v := by
  induction gs generalizing v with
  | nil => simp
  | cons y ys ih =>
    simp only [List.foldl_cons]
    refine ⟨le_trans (le_max_left _ _) (ih (max v (y.value_at points))).1, ?_⟩
    intro g hg
    rcases List.mem_cons.mp hg with h | h
    · subst h
      exact le_trans (le_max_right _ _) (ih _).1
    · exact (ih _).2 g h

/-- Auxiliary identity: folding `max` over indicator values equals folding
`max` over the mapped value list. -/
theorem foldl_max_map {P : Type} (points : P) (v : ℚ)
    (gs : List (GeometryS P)) :
    gs.foldl (fun acc h => max acc (h.value_at points)) v =
      (gs.map (fun g => g.value_at points)).foldl max v := by
  induction gs generalizing v with
  | nil => rfl
  | cons y ys ih =>
    simp only [List.foldl_cons, List.map_cons]
    exact ih _

/-- C4 (amended): `sample_at` equals the spec's description — zero for zero
geometries, `value_at * data` for one, pointwise maximum of the `value_at`
values times `data` for several — and, when the constant value is
nonnegative, the result is never less than any individual scaled indicator. -/
theorem sample_at_spec {P : Type} (m : GeometryMask P) (points : P) :
    GeometryMask.sample_at m points = specMaskValue m points ∧
    (0 ≤ m.data → ∀ g ∈ m.geometries,
      g.value_at points * m.data ≤ GeometryMask.sample_at m points) := by
  constructor
  · cases hg : m.geometries with
    | nil => simp [GeometryMask.sample_at, specMaskValue, hg]
    | cons g gs =>
      cases gs with
      | nil => simp [GeometryMask.sample_at, specMaskValue, hg]
      | cons g2 gs2 =>
        simp only [GeometryMask.sample_at, specMaskValue, hg, List.map_cons,
          List.foldl_cons]
        rw [foldl_max_map]
  · intro hd g hmem
    cases hg : m.geometries with
    | nil => simp [hg] at hmem
    | cons g1 gs =>
      rw [hg] at hmem
      cases gs with
      | nil =>
        simp only [List.mem_singleton] at hmem
        simp [GeometryMask.sample_at, hg, hmem]
      | cons g2 gs2 =>
        simp only [GeometryMask.sample_at, hg]
        apply mul_le_mul_of_nonneg_right _ hd
        rcases List.mem_cons.mp hmem with h | h
        · subst h
          exact (foldl_max_value_ge points (g.value_at points) (g2 :: gs2)).1
        · exact (foldl_max_value_ge points (g1.value_at points) (g2 :: gs2)).2 g h

/-- A geometry whose indicator is constantly zero, on rational points. -/
def geomZero : GeometryS ℚ := ⟨fun _ => 0, 1⟩

/-- A geometry whose indicator is constantly one, on rational points. -/
def geomOne : GeometryS ℚ := ⟨fun _ => 1, 1⟩

/-- A two-geometry mask with a negative constant value. -/
def maskNeg : GeometryMask ℚ := ⟨[geomZero, geomOne], -1⟩

/-- A two-geometry mask with a positive constant value. -/
def maskPos : GeometryMask ℚ := ⟨[geomZero, geomOne], 2⟩

/-- C4 counterexample: with two geometries and the negative constant value
-1, the sampled mask is strictly less than the first geometry's scaled
indicator, so the claim's "never less than any individual scaled indicator"
fails as stated. -/
theorem sample_at_below_scaled_indicator :
    geomZero ∈ maskNeg.geometries ∧
      GeometryMask.sample_at maskNeg 0 < geomZero.value_at 0 * maskNeg.data := by
  constructor
  · simp [maskNeg]
  · norm_num [GeometryMask.sample_at, maskNeg, geomZero, geomOne]

/-- C4 witness: the nonnegative-value bound applied to a concrete mask. -/
theorem sample_at_spec_witness :
    geomOne.value_at 0 * maskPos.data ≤ GeometryMask.sample_at maskPos 0 :=
  (sample_at_spec maskPos 0).2 (by norm_num [maskPos]) geomOne
    (by simp [maskPos])

/-- C10: on an empty geometry tuple, `sample_at` is total and returns the
zero field, while `rank` (and therefore `unstack`, which reads it) fails
instead of returning a value. -/
theorem empty_mask_sample_total_rank_fails {P : Type} (m : GeometryMask P)
    (points : P) (h : m.geometries = []) :
    GeometryMask.sample_at m points = 0 ∧
      GeometryMask.rank m = none ∧ GeometryMask.unstack m = none := by
  refine ⟨?_, ?_, ?_⟩
  · simp [GeometryMask.sample_at, h]
  · simp [GeometryMask.rank, h]
  · simp [GeometryMask.unstack, GeometryMask.rank, h]

/-- An empty mask over rational points. -/
def maskEmpty : GeometryMask ℚ := ⟨[], 1⟩

/-- C10 witness: the empty concrete mask. -/
theorem empty_mask_sample_total_rank_fails_witness :
    GeometryMask.sample_at maskEmpty 0 = 0 ∧
      GeometryMask.rank maskEmpty = none ∧ GeometryMask.unstack maskEmpty = none :=
  empty_mask_sample_total_rank_fails maskEmpty 0 rfl

/-! ## Incompressible projection (`make_incompressible`, flip.py lines 14-70)

Cells are indexed by `ℤ` (a one-dimensional grid, unbounded so that the
boundary-extrapolation policy of the external field layer does not enter);
a staggered field assigns a rational to every face, a centered field to every
cell, with face `i` sitting between cells `i - 1` and `i`. -/

/-- Modelled from the spec: the discrete divergence operator
`divergence(staggered_field) -> centered_field` of the external field layer,
as the difference of the two face values around each cell. -/
def divergence (u : ℤ → ℚ) : ℤ → ℚ := fun i => u (i + 1) - u i

/-- Modelled from the spec: the discrete spatial gradient
`gradient(centered_field, target_type) -> field` of the external field layer,
as the difference of the two cell values around each face. -/
def spatial_gradient (p : ℤ → ℚ) : ℤ → ℚ := fun i => p i - p (i - 1)

/-- Numeric indicator of a boolean occupancy mask. -/
def boolInd (b : Bool) : ℚ := if b then 1 else 0

/-- `velocity_field` of flip.py lines 50-51: the input velocity masked by the
staggered occupancy, extrapolated one step into unoccupied cells (the
extrapolation `E` is the external `extrapolate_valid`, supplied abstractly),
then multiplied by the accessibility mask. -/
def velocity_field_of (E : (ℤ → ℚ) → (ℤ → ℚ) → (ℤ → ℚ))
    (velocity occupied_staggered accessible : ℤ → ℚ) : ℤ → ℚ :=
  fun i =>
    E (fun j => velocity j * occupied_staggered j) occupied_staggered i *
      accessible i

/-- The right-hand side `div` of flip.py line 52: the divergence of
`velocity_field`, multiplied by the centered occupancy mask. -/
def div_rhs (vf : ℤ → ℚ) (occupied_centered : ℤ → Bool) : ℤ → ℚ :=
  fun i => divergence vf i * boolInd (occupied_centered i)

/-- `matrix_eq` of flip.py lines 54-56: at occupied cells the divergence of
the accessibility-masked pressure gradient, elsewhere the pressure itself
(`field.where(occupied_centered, ..., p)`). -/
def matrix_eq (occupied_centered : ℤ → Bool) (accessible : ℤ → ℚ)
    (p : ℤ → ℚ) : ℤ → ℚ :=
  fun i =>
    if occupied_centered i then
      divergence (fun j => spatial_gradient p j * accessible j) i
    else p i

/-- The velocity returned by `make_incompressible` (flip.py lines 69-70):
`velocity_field - spatial_gradient(pressure) * accessible`, where `pressure`
is the field returned by the linear solve.  The custom-gradient wrapper on
lines 63-67 is the identity on forward values and does not change the
result. -/
def velocity_out (E : (ℤ → ℚ) → (ℤ → ℚ) → (ℤ → ℚ))
    (velocity occupied_staggered accessible p : ℤ → ℚ) : ℤ → ℚ :=
  fun i =>
    velocity_field_of E velocity occupied_staggered accessible i -
      spatial_gradient p i * accessible i

/-- C1: whenever the pressure returned by the linear solve satisfies the
system within a pointwise residual `ε` (the solver's tolerance; modelled from
the spec, `solve_linear` raises on non-convergence), the divergence of the
velocity field returned by `make_incompressible`, restricted to the cells
occupied by particles, is within `ε` of zero. -/
theorem make_incompressible_div_bound
    (E : (ℤ → ℚ) → (ℤ → ℚ) → (ℤ → ℚ))
    (velocity occupied_staggered accessible p : ℤ → ℚ)
    (occupied_centered : ℤ → Bool) (ε : ℚ)
    (hres : ∀ i,
      |matrix_eq occupied_centered accessible p i -
        div_rhs (velocity_field_of E velocity occupied_staggered accessible)
          occupied_centered i| ≤ ε)
    (i : ℤ) (hi : occupied_centered i = true) :
    |divergence
        (velocity_out E velocity occupied_staggered accessible p) i| ≤ ε := by
  have h := hres i
  simp only [matrix_eq, div_rhs, boolInd, hi, if_true, mul_one] at h
  have hdiv : divergence
      (velocity_out E velocity occupied_staggered accessible p) i =
      -(divergence (fun j => spatial_gradient p j * accessible j) i -
        divergence
          (velocity_field_of E velocity occupied_staggered accessible) i) := by
    simp only [divergence, velocity_out]
    ring
  rw [hdiv, abs_neg]
  exact h

/-- The identity extrapolation, used by the C1 witness. -/
def idExtrap : (ℤ → ℚ) → (ℤ → ℚ) → (ℤ → ℚ) := fun f _ => f

/-- The all-zero field on faces or cells, used by the C1 witness. -/
def zeroField : ℤ → ℚ := fun _ => 0

/-- The everywhere-occupied centered mask, used by the C1 witness. -/
def allOccupied : ℤ → Bool := fun _ => true

/-- C1 witness: the zero velocity with zero pressure solves the system with
zero residual, and the output divergence at the occupied cell 0 is zero. -/
theorem make_incompressible_div_bound_witness :
    |divergence
        (velocity_out idExtrap zeroField zeroField zeroField zeroField) 0| ≤ 0 :=
  make_incompressible_div_bound idExtrap zeroField zeroField zeroField
    zeroField allOccupied 0
    (by
      intro i
      simp [matrix_eq, div_rhs, divergence, spatial_gradient,
        velocity_field_of, boolInd, zeroField, idExtrap, allOccupied])
    0 rfl

/-! ## Accessibility mask (`accessible_mask`, flip.py lines 136-152) and the
obstacle dispatch of `make_incompressible` (flip.py lines 39-42) -/

/-- The two grid classes of the field layer. -/
inductive GridKind where
  | centered
  | staggered
deriving DecidableEq

/-- A Python value passed as the `type` argument of `accessible_mask`: either
one of the grid classes themselves (`CenteredGrid` or `StaggeredGrid` as
first-class class objects, which is what every call site in flip.py passes)
or an instance of one of the grid classes. -/
inductive PyTypeArg where
  | gridClass : GridKind → PyTypeArg
  | gridInstance : GridKind → PyTypeArg
deriving DecidableEq

/-- Python `isinstance(x, (CenteredGrid, StaggeredGrid))` as checked on
flip.py line 150: true exactly when `x` is an *instance* of one of the grid
classes; a class object such as `StaggeredGrid` itself is not an instance of
either class. -/
def isinstanceGrid : PyTypeArg → Bool
  | .gridClass _ => false
  | .gridInstance _ => true

/-- Python `type is StaggeredGrid` as checked on flip.py line 152: identity
with the `StaggeredGrid` class object. -/
def isStaggeredClass : PyTypeArg → Bool
  | .gridClass .staggered => true
  | _ => false

/-- Outcome of a call to `accessible_mask`: whether the
`DeprecationWarning` was emitted, and either the returned mask or the raised
error. -/
structure MaskCall (M : Type) where
  warned : Bool
  result : Except String M

/-- `accessible_mask` (flip.py lines 136-152): emit the deprecation warning
(line 149, before anything else), assert
`isinstance(type, (CenteredGrid, StaggeredGrid))` (line 150), then return the
staggered or the centered legacy mask according to `type is StaggeredGrid`
(lines 151-152).  The legacy masks themselves —
`CenteredGrid(~union(not_accessible))` and its `field.stagger` — are built by
the external field layer and are passed in as `centeredMask` and
`staggeredMask`. -/
def accessible_mask {M : Type} (centeredMask staggeredMask : M)
    (t : PyTypeArg) : MaskCall M :=
  { warned := true
    result :=
      if isinstanceGrid t then
        .ok (if isStaggeredClass t then staggeredMask else centeredMask)
      else
        .error "AssertionError" }

/-- The `obstacles` argument of `make_incompressible`: a prebuilt staggered
mask, or a sequence of obstacles (kept abstract; only its geometries feed the
mask construction). -/
inductive ObstaclesArg (M O : Type) where
  | staggeredGrid : M → ObstaclesArg M O
  | obstacleList : List O → ObstaclesArg M O

/-- The accessibility-mask dispatch of `make_incompressible` (flip.py lines
39-42): a `StaggeredGrid` argument is used directly; otherwise
`accessible_mask(union(...), type=StaggeredGrid)` is called, passing the
`StaggeredGrid` class object. -/
def make_incompressible_accessible {M O : Type}
    (centeredMask staggeredMask : M) :
    ObstaclesArg M O → MaskCall M
  | .staggeredGrid m => { warned := false, result := .ok m }
  | .obstacleList _ =>
      accessible_mask centeredMask staggeredMask (.gridClass .staggered)

/-- C5 evaluation: a prebuilt `StaggeredGrid` is used directly, but for every
obstacle sequence — including the empty default — the call reaches
`accessible_mask`, whose line-150 assert checks `isinstance` on the
`StaggeredGrid` class object and therefore raises `AssertionError` instead of
building the mask; the projection never proceeds. -/
theorem make_incompressible_accessible_eval {M O : Type}
    (centeredMask staggeredMask m : M) (obs : List O) :
    make_incompressible_accessible centeredMask staggeredMask
        (.staggeredGrid (O := O) m) =
      { warned := false, result := .ok m } ∧
    make_incompressible_accessible centeredMask staggeredMask
        (.obstacleList (M := M) obs) =
      { warned := true, result := .error "AssertionError" } :=
  ⟨rfl, rfl⟩

/-- C6 evaluation: every call to `accessible_mask` with a grid class object —
which is what every call site passes, on both the default `CenteredGrid` and
the explicit `StaggeredGrid` — does emit the `DeprecationWarning`, but then
raises `AssertionError` from the line-150 `isinstance` check instead of
returning the legacy mask. -/
theorem accessible_mask_raises {M : Type} (centeredMask staggeredMask : M)
    (k : GridKind) :
    accessible_mask centeredMask staggeredMask (.gridClass k) =
      { warned := true, result := .error "AssertionError" } :=
  rfl

/-! ## Boundary enforcement (`respect_boundaries`, flip.py lines 112-133) -/

/-- A geometry as consumed by `respect_boundaries`.  Modelled from the spec:
geometries provide `push(points, shift_amount)`, displacing the bulk of
particle positions (`Pos`) out of the shape by the given margin. -/
structure GeomB (Pos : Type) where
  push : Pos → ℚ → Pos

/-- The domain bounds of a particle cloud.  Modelled from the spec: a box with
per-dimension extents (`size`) whose complement `~bounds` is itself a
geometry with a `push` operation (pushing points back inside the box). -/
structure BoxB (Pos : Type) where
  size : List ℚ
  complPush : Pos → ℚ → Pos

/-- An entry of the `not_accessible` argument: an `Obstacle` (carrying its
geometry) or a bare geometry. -/
inductive NotAccessibleItem (Pos : Type) where
  | obstacle : GeomB Pos → NotAccessibleItem Pos
  | geometry : GeomB Pos → NotAccessibleItem Pos

/-- The `isinstance(obj, Obstacle)` unwrapping of flip.py lines 129-130: an
obstacle contributes its geometry, a geometry is used as is. -/
def itemGeometry {Pos : Type} : NotAccessibleItem Pos → GeomB Pos
  | .obstacle g => g
  | .geometry g => g

/-- A particle cloud as consumed by `respect_boundaries`: the optional
explicit `_bounds`, and the bulk of the particle centers
(`particles.elements.center`). -/
structure PointCloudB (Pos : Type) where
  bounds? : Option (BoxB Pos)
  centers : Pos

/-- The sphere elements of the returned cloud
(`Sphere(new_positions, radius)`). -/
structure SphereB (Pos : Type) where
  center : Pos
  radius : ℚ

/-- `math.mean` of a list of extents. -/
def listMean (xs : List ℚ) : ℚ := xs.sum / xs.length

/-- `respect_boundaries` (flip.py lines 112-133): assert that `_bounds` is
set (line 125); push the particle centers with each obstacle or geometry in
the given order (lines 128-131); push them with the complement of the bounds
(line 132); return the cloud rebuilt with sphere elements of radius
`mean(bounds.size) * 0.005` at the corrected centers (line 133).  The
returned cloud is represented by its elements. -/
def respect_boundaries {Pos : Type} (particles : PointCloudB Pos)
    (not_accessible : List (NotAccessibleItem Pos)) (offset : ℚ) :
    Except String (SphereB Pos) :=
  match particles.bounds? with
  | none => .error "AssertionError"
  | some bounds =>
    let afterObstacles := not_accessible.foldl
      (fun ps obj => (itemGeometry obj).push ps offset) particles.centers
    let new_positions := bounds.complPush afterObstacles offset
    .ok { center := new_positions
          radius := listMean bounds.size * 0.005 }

/-- C7: with bounds set, `respect_boundaries` applies each obstacle's or
geometry's push in the given order with the `offset` margin, then the push of
the bounds' complement with the same offset, and returns sphere elements of
radius 0.5% of the mean domain extent centered at the corrected
positions. -/
theorem respect_boundaries_spec {Pos : Type} (particles : PointCloudB Pos)
    (not_accessible : List (NotAccessibleItem Pos)) (offset : ℚ)
    (b : BoxB Pos) (hb : particles.bounds? = some b) :
    respect_boundaries particles not_accessible offset =
      .ok { center := b.complPush
              (not_accessible.foldl
                (fun ps obj => (itemGeometry obj).push ps offset)
                particles.centers)
              offset
            radius := b.size.sum / b.size.length * (5 / 1000) } := by
  simp only [respect_boundaries, hb, listMean]
  norm_num

/-- A position bulk for witnesses: a single rational coordinate. -/
def obstacleShift : NotAccessibleItem ℚ := .obstacle ⟨fun x s => x + s⟩

/-- A geometry entry for witnesses, shifting positions down. -/
def geometryShift : NotAccessibleItem ℚ := .geometry ⟨fun x s => x - s⟩

/-- A concrete bounds box for witnesses. -/
def boxB : BoxB ℚ := ⟨[2, 4], fun x s => x + 2 * s⟩

/-- A concrete cloud with bounds, for witnesses. -/
def cloudB : PointCloudB ℚ := ⟨some boxB, 10⟩

/-- A concrete cloud without bounds. -/
def cloudNoBounds : PointCloudB ℚ := ⟨none, 10⟩

/-- C7 witness: the concrete cloud with bounds, one obstacle and one
geometry; pushes apply in order and the sphere radius is 0.5% of the mean
extent 3. -/
theorem respect_boundaries_spec_witness :
    respect_boundaries cloudB [obstacleShift, geometryShift] (1 / 2) =
      .ok { center := boxB.complPush
              ([obstacleShift, geometryShift].foldl
                (fun ps obj => (itemGeometry obj).push ps (1 / 2))
                cloudB.centers)
              (1 / 2)
            radius := boxB.size.sum / boxB.size.length * (5 / 1000) } :=
  respect_boundaries_spec cloudB [obstacleShift, geometryShift] (1 / 2) boxB rfl

/-- C8: `respect_boundaries` fails with the precondition (assertion) error
exactly when the cloud carries no explicit bounds; with bounds set the check
passes and a result is returned. -/
theorem respect_boundaries_requires_bounds {Pos : Type}
    (particles : PointCloudB Pos)
    (not_accessible : List (NotAccessibleItem Pos)) (offset : ℚ) :
    (∃ e, respect_boundaries particles not_accessible offset = .error e) ↔
      particles.bounds? = none := by
  cases hb : particles.bounds? with
  | none => simp [respect_boundaries, hb]
  | some b => simp [respect_boundaries, hb]

end PhiFlowSpec
